import Mathlib

/-!
Shallow embedding of the labwhere domain layer (Rust): the `LocationType`,
`Location` and `Labware` entities, name validation, barcode generation, and
the persistence operations against an SQLite store, as implemented in
`src/models/location.rs`, `src/models/labware.rs`, `src/models/location_type.rs`
and `src/errors/mod.rs`.

Machine integers: the Rust ids are `u32` and SQLite rowids are `i64`; every id
produced in these operations is a small positive row counter, far below both
bounds, so ids are embedded as `Nat`.

Character-level semantics: the Rust regex crate interprets `\w` and `\s` with
their Unicode tables, and `str::trim` / `str::to_lowercase` are also
Unicode-aware. The tables below are exact for every code point under 0x100
(ASCII and Latin-1), which covers every string appearing in the theorems of
this development; code points at or above 0x100 are mapped to "not a word
character, not whitespace, unchanged by lowercasing", and no theorem below
depends on a character in that range.
-/

/-- LocationType entity of location_type.rs: an id assigned by the store and a name. -/
structure LocationType where
  id : Nat
  name : String
deriving Repr, DecidableEq

/-- Location entity of location.rs: id, name, optional barcode, and the id of
the owning location type. -/
structure Location where
  id : Nat
  name : String
  barcode : Option String
  location_type_id : Nat
deriving Repr, DecidableEq

/-- Labware entity of labware.rs: id, caller-supplied barcode, and the id of
the location holding it. -/
structure Labware where
  id : Nat
  barcode : String
  location_id : Nat
deriving Repr, DecidableEq

/-- Error value of Location::new in location.rs, carrying a message. -/
structure NameFormatError where
  message : String
deriving Repr, DecidableEq

/-- Error value of errors/mod.rs, carrying a message. -/
structure NotFoundError where
  message : String
deriving Repr, DecidableEq

/-- Store-level error (sqlx::Error): `RowNotFound` is the zero-rows signal of
fetch_one; `Io` stands for any other store failure (connectivity loss,
constraint violation, malformed statement), tagged with a description. -/
inductive SqlxError where
  | RowNotFound : SqlxError
  | Io : String → SqlxError
deriving Repr, DecidableEq

/-- Outcome of a Rust call that can also panic (unwind), as Location::create
does through `.unwrap()`: a value, a propagated store error, or a panic with
its message. -/
inductive RustOutcome (α : Type) where
  | ok : α → RustOutcome α
  | err : SqlxError → RustOutcome α
  | panicked : String → RustOutcome α
deriving Repr, DecidableEq

/-- Unicode White_Space test of the Rust regex class `\s` and of `str::trim`,
exact below code point 0x100 (tab through carriage return, space, next line,
no-break space). -/
def rustWhitespaceChar (c : Char) : Bool :=
  let n := c.toNat
  n = 0x20 || (0x9 ≤ n && n ≤ 0xD) || n = 0x85 || n = 0xA0

/-- Unicode word-character test of the Rust regex class `\w`
(alphabetic, decimal digit, or connector punctuation), exact below code
point 0x100: ASCII digits, ASCII letters, underscore, and the Latin-1
letters (feminine and masculine ordinals, micro sign, and the accented
letter blocks without the multiplication and division signs). -/
def rustRegexWordChar (c : Char) : Bool :=
  let n := c.toNat
  (48 ≤ n && n ≤ 57) || (65 ≤ n && n ≤ 90) || (97 ≤ n && n ≤ 122) || n = 95 ||
  n = 0xAA || n = 0xB5 || n = 0xBA ||
  (0xC0 ≤ n && n ≤ 0xD6) || (0xD8 ≤ n && n ≤ 0xF6) || (0xF8 ≤ n && n ≤ 0xFF)

/-- Character class `[\w\-\s()]` of the name regex in location.rs line 178. -/
def nameCharAllowed (c : Char) : Bool :=
  rustRegexWordChar c || c.toNat = 45 || rustWhitespaceChar c ||
  c.toNat = 40 || c.toNat = 41

/-- Number of bytes the UTF-8 encoding of a character takes. -/
def utf8Bytes (c : Char) : Nat :=
  if c.toNat ≤ 0x7F then 1
  else if c.toNat ≤ 0x7FF then 2
  else if c.toNat ≤ 0xFFFF then 3
  else 4

/-- str::len of Rust: the length of the string in UTF-8 bytes. -/
def rustStrLen (s : String) : Nat :=
  (s.data.map utf8Bytes).sum

/-- str::trim of Rust: remove leading and trailing Unicode whitespace. -/
def rustTrim (s : String) : String :=
  ⟨((s.data.dropWhile rustWhitespaceChar).reverse.dropWhile rustWhitespaceChar).reverse⟩

/-- str::replace(" ", "-") of Rust: each space character becomes a hyphen. -/
def rustReplaceSpaceWithHyphen (s : String) : String :=
  ⟨s.data.map (fun c => if c.toNat = 32 then Char.ofNat 45 else c)⟩

/-- char-level case mapping of str::to_lowercase, exact below code point
0x100: ASCII upper-case letters and the Latin-1 upper-case letters (without
the multiplication sign) move down by 32, everything else is unchanged. -/
def rustLowerChar (c : Char) : Char :=
  let n := c.toNat
  if (65 ≤ n && n ≤ 90) || ((0xC0 ≤ n && n ≤ 0xDE) && n ≠ 0xD7) then
    Char.ofNat (n + 32)
  else c

/-- str::to_lowercase of Rust, exact below code point 0x100. -/
def rustToLowercase (s : String) : String :=
  ⟨s.data.map rustLowerChar⟩

/-- Location::validate_name of location.rs lines 174-179: the byte length must
lie in 1..=60 and the whole name must match the regex `\A[\w\-\s()]+\z`. -/
def Location.validate_name (name : String) : Bool :=
  if !(1 ≤ rustStrLen name && rustStrLen name ≤ 60) then false
  else !name.data.isEmpty && name.data.all nameCharAllowed

/-- Location::new of location.rs lines 66-84: validate the name, then build
the value; an invalid name is a NameFormatError. -/
def Location.new (id : Nat) (name : String) (location_type_id : Nat)
    (barcode : Option String) : Except NameFormatError Location :=
  if !(Location.validate_name name) then
    Except.error ⟨"Invalid name format"⟩
  else
    Except.ok ⟨id, name, barcode, location_type_id⟩

/-- UNKNOWN_LOCATION of location.rs lines 22-32: the lazily initialised
sentinel, built by Location::new followed by `.unwrap()`. The unwrap panic
branch is embedded as an obviously-junk fallback value; the theorem on this
definition shows the Ok branch is the one taken. -/
def UNKNOWN_LOCATION : Location :=
  match Location.new 999 "UNKNOWN" 1 (some "lw-unknown-999") with
  | Except.ok l => l
  | Except.error _ => ⟨0, "", none, 0⟩

/-- Location::unknown of location.rs lines 154-156: a reference to the
sentinel, no store access. -/
def Location.unknown : Location :=
  UNKNOWN_LOCATION

/-- Location::create_barcode of location.rs lines 160-168: format
`lw-{name trimmed, spaces to hyphens, lower-cased}-{id}`, store it in the
barcode field, and return it. The method mutates self, so the embedding
returns the barcode together with the updated entity. -/
def Location.create_barcode (l : Location) : String × Location :=
  let barcode :=
    "lw-" ++ rustToLowercase (rustReplaceSpaceWithHyphen (rustTrim l.name)) ++
    "-" ++ toString l.id
  (barcode, { l with barcode := some barcode })

/-- BarcodeGenerator contract stated by the spec, written from its words:
trim the name, replace each space with a hyphen, lower-case, and format as
lw-slug-id. Kept separate from Location.create_barcode so the two can be
compared. -/
def BarcodeGenerator.generate (name : String) (id : Nat) : String :=
  "lw-" ++ rustToLowercase (rustReplaceSpaceWithHyphen (rustTrim name)) ++
  "-" ++ toString id

/-- Character class `[A-Za-z0-9_\-\s()]` exactly as the claim about name
validation words it, with `\s` read as the ASCII whitespace characters.
Written from the claim, to be compared with nameCharAllowed. -/
def specNameCharAllowed (c : Char) : Bool :=
  let n := c.toNat
  (65 ≤ n && n ≤ 90) || (97 ≤ n && n ≤ 122) || (48 ≤ n && n ≤ 57) ||
  n = 95 || n = 45 || n = 0x20 || (0x9 ≤ n && n ≤ 0xD) || n = 40 || n = 41

/-- State of the SQLite store reached through one connection. The schema file
is not part of the staged sources; the three tables are modelled from the
spec: location_types(id PK, name), locations(id PK, name, barcode NULL,
location_type_id), labwares(id PK, barcode, location_id), each id an INTEGER
PRIMARY KEY alias of the rowid, assigned by SQLite as one more than the
largest rowid in the table. `last_insert_rowid` is the per-connection value
sqlite3_last_insert_rowid returns: the rowid of the most recent successful
INSERT on the connection; UPDATE statements leave it unchanged. Row lists are
kept in rowid order, the order a table scan returns rows in. -/
structure Db where
  location_types : List LocationType
  locations : List Location
  labwares : List Labware
  last_insert_rowid : Nat
deriving Repr, DecidableEq

/-- rowid SQLite assigns to a fresh insert: one more than the largest rowid
present in the table. -/
def nextRowid (ids : List Nat) : Nat :=
  ids.foldr max 0 + 1

/-- INSERT INTO locations (name, location_type_id) VALUES (?, ?): appends the
row with a NULL barcode, records the assigned rowid as the connection's
last_insert_rowid, and returns it. -/
def insert_location (name : String) (location_type_id : Nat) (db : Db) :
    Nat × Db :=
  let id := nextRowid (db.locations.map Location.id)
  (id, { db with
          locations := db.locations ++ [⟨id, name, none, location_type_id⟩],
          last_insert_rowid := id })

/-- UPDATE locations SET barcode = ? WHERE id = ?: rewrites the barcode of
every row whose id matches; last_insert_rowid is untouched. -/
def update_location_barcode (id : Nat) (barcode : String) (db : Db) : Db :=
  { db with
      locations := db.locations.map
        (fun l => if l.id = id then { l with barcode := some barcode } else l) }

/-- fetch_one of sqlx: the first row of the result set, or the RowNotFound
error when the result set is empty. -/
def fetch_one {α : Type} (rows : List α) : Except SqlxError α :=
  match rows with
  | [] => Except.error SqlxError.RowNotFound
  | r :: _ => Except.ok r

/-- SELECT * FROM locations WHERE barcode = ? under fetch_one. -/
def select_location_by_barcode (barcode : String) (db : Db) :
    Except SqlxError Location :=
  fetch_one (db.locations.filter (fun l => l.barcode = some barcode))

/-- SELECT * FROM locations WHERE id = ? under fetch_one. -/
def select_location_by_id (id : Nat) (db : Db) : Except SqlxError Location :=
  fetch_one (db.locations.filter (fun l => l.id = id))

/-- Location::create of location.rs lines 94-118, step by step: run the
insert, read last_insert_rowid, call Location::new on the inserted name with
`.unwrap()` (a panic when the name is invalid — the row is already in the
store at that point), compute the barcode through create_barcode, run the
barcode UPDATE, and return the entity create_barcode populated. The store
state after each executed statement is returned alongside the outcome. -/
def Location.create (name : String) (location_type_id : Nat) (db : Db) :
    RustOutcome Location × Db :=
  let step := insert_location name location_type_id db
  match Location.new step.1 name location_type_id none with
  | Except.error e => (RustOutcome.panicked e.message, step.2)
  | Except.ok loc =>
      let bstep := loc.create_barcode
      (RustOutcome.ok bstep.2, update_location_barcode step.1 bstep.1 step.2)

/-- match expression of Location::find_by_barcode, location.rs lines 133-142:
an Ok row passes through; every Err — whatever the store error was — becomes
the NotFoundError with message "Location not found". -/
def Location.find_by_barcode_from_result (r : Except SqlxError Location) :
    Except NotFoundError Location :=
  match r with
  | Except.ok l => Except.ok l
  | Except.error _ => Except.error ⟨"Location not found"⟩

/-- Location::find_by_barcode of location.rs lines 129-143: the SELECT under
fetch_one, with every error translated by the match expression. -/
def Location.find_by_barcode (barcode : String) (db : Db) :
    Except NotFoundError Location :=
  Location.find_by_barcode_from_result (select_location_by_barcode barcode db)

/-- Labware::new of labware.rs lines 31-37: the location id is the given
location's id, or the sentinel's id when no location is given. Total. -/
def Labware.new (id : Nat) (barcode : String) (location : Option Location) :
    Labware :=
  ⟨id, barcode, (location.getD UNKNOWN_LOCATION).id⟩

/-- INSERT INTO labwares (barcode, location_id) VALUES (?, ?): appends the
row, records the assigned rowid as last_insert_rowid, and returns it. -/
def insert_labware (barcode : String) (location_id : Nat) (db : Db) :
    Nat × Db :=
  let id := nextRowid (db.labwares.map Labware.id)
  (id, { db with
          labwares := db.labwares ++ [⟨id, barcode, location_id⟩],
          last_insert_rowid := id })

/-- Labware::create of labware.rs lines 48-67: insert the row, read
last_insert_rowid, re-fetch the referenced Location by location_id (the `?`
operator propagates the store error, RowNotFound included, when that row is
missing), and build the entity through Labware::new. -/
def Labware.create (barcode : String) (location_id : Nat) (db : Db) :
    Except SqlxError Labware × Db :=
  let step := insert_labware barcode location_id db
  match select_location_by_id location_id step.2 with
  | Except.error e => (Except.error e, step.2)
  | Except.ok loc => (Except.ok (Labware.new step.1 barcode (some loc)), step.2)

/-- UPDATE labwares SET location_id = ? WHERE id = ?: rewrites the location
id of every row whose id matches; last_insert_rowid is untouched, exactly as
sqlite3_last_insert_rowid is untouched by an UPDATE. -/
def update_labware_location (id : Nat) (location_id : Nat) (db : Db) : Db :=
  { db with
      labwares := db.labwares.map
        (fun lw => if lw.id = id then { lw with location_id := location_id }
                   else lw) }

/-- Labware::update of labware.rs lines 83-104: run the UPDATE, read
last_insert_rowid from its query result (for an UPDATE this is still the
rowid of the last INSERT on the connection), re-fetch the referenced
Location, and build the returned entity with that id. -/
def Labware.update (labware : Labware) (db : Db) :
    Except SqlxError Labware × Db :=
  let db1 := update_labware_location labware.id labware.location_id db
  match select_location_by_id labware.location_id db1 with
  | Except.error e => (Except.error e, db1)
  | Except.ok loc =>
      (Except.ok (Labware.new db1.last_insert_rowid labware.barcode (some loc)),
       db1)

/-- match expression of Labware::find_by_barcode, labware.rs lines 118-127:
an Ok row passes through; every Err becomes the NotFoundError with message
"Labware not found". -/
def Labware.find_by_barcode_from_result (r : Except SqlxError Labware) :
    Except NotFoundError Labware :=
  match r with
  | Except.ok l => Except.ok l
  | Except.error _ => Except.error ⟨"Labware not found"⟩

/-- SELECT * FROM labwares WHERE barcode = ? under fetch_one. -/
def select_labware_by_barcode (barcode : String) (db : Db) :
    Except SqlxError Labware :=
  fetch_one (db.labwares.filter (fun l => l.barcode = barcode))

/-- Labware::find_by_barcode of labware.rs lines 114-128. -/
def Labware.find_by_barcode (barcode : String) (db : Db) :
    Except NotFoundError Labware :=
  Labware.find_by_barcode_from_result (select_labware_by_barcode barcode db)

/-- Decidable equality on Except, so results of the fallible operations can
be evaluated on concrete inputs. -/
instance {ε α : Type} [DecidableEq ε] [DecidableEq α] : DecidableEq (Except ε α)
  | Except.ok a, Except.ok b =>
      if h : a = b then isTrue (h ▸ rfl)
      else isFalse (fun hh => h (Except.ok.inj hh))
  | Except.ok _, Except.error _ => isFalse (fun hh => Except.noConfusion hh)
  | Except.error _, Except.ok _ => isFalse (fun hh => Except.noConfusion hh)
  | Except.error e, Except.error f =>
      if h : e = f then isTrue (h ▸ rfl)
      else isFalse (fun hh => h (Except.error.inj hh))

/-- Store holding one location type (id 1) and nothing else: the state
init_db plus one LocationType::create leaves a fresh in-memory store in. -/
def freshDb : Db :=
  ⟨[⟨1, "Building"⟩], [], [], 1⟩

/-- Every member of a list of naturals is bounded by the foldr of max over it. -/
lemma mem_le_foldr_max {l : List Nat} {x : Nat} (hx : x ∈ l) :
    x ≤ l.foldr max 0 := by
  induction l with
  | nil => cases hx
  | cons a t ih =>
      rcases List.mem_cons.mp hx with h | h
      · subst h; exact le_max_left _ _
      · exact le_trans (ih h) (le_max_right _ _)

/-- A row already in the table has an id strictly below the next rowid. -/
lemma mem_id_lt_nextRowid {l : List Location} {x : Location} (hx : x ∈ l) :
    x.id < nextRowid (l.map Location.id) := by
  have : x.id ∈ l.map Location.id := List.mem_map_of_mem Location.id hx
  have := mem_le_foldr_max this
  unfold nextRowid
  omega

/-- The barcode UPDATE leaves every row whose id differs untouched. -/
lemma update_barcode_map_skips {locs : List Location} {id : Nat}
    (h : ∀ l ∈ locs, l.id ≠ id) (barcode : String) :
    locs.map (fun l => if l.id = id then { l with barcode := some barcode }
      else l) = locs := by
  induction locs with
  | nil => rfl
  | cons a t ih =>
      have ha : a.id ≠ id := h a (List.mem_cons_self a t)
      simp only [List.map_cons, if_neg ha, List.cons.injEq, true_and]
      exact ih (fun l hl => h l (List.mem_cons_of_mem a hl))

/-- Characters below code point 128 take one UTF-8 byte. -/
lemma utf8Bytes_of_ascii {c : Char} (h : c.toNat < 128) : utf8Bytes c = 1 := by
  unfold utf8Bytes
  rw [if_pos (by omega)]

/-- Byte length of an all-ASCII character list equals its character count. -/
lemma sum_utf8Bytes_ascii :
    ∀ (l : List Char), (∀ c ∈ l, c.toNat < 128) →
      (l.map utf8Bytes).sum = l.length := by
  intro l
  induction l with
  | nil => intro _; rfl
  | cons a t ih =>
      intro h
      have ha := utf8Bytes_of_ascii (h a (List.mem_cons_self a t))
      simp only [List.map_cons, List.sum_cons, List.length_cons, ha,
        ih (fun c hc => h c (List.mem_cons_of_mem a hc))]
      omega

/-- On ASCII characters the regex class of the source coincides with the
character class the claim words. -/
lemma nameCharAllowed_eq_spec {c : Char} (h : c.toNat < 128) :
    nameCharAllowed c = specNameCharAllowed c := by
  rw [Bool.eq_iff_iff]
  simp only [nameCharAllowed, rustRegexWordChar, rustWhitespaceChar,
    specNameCharAllowed, Bool.or_eq_true, Bool.and_eq_true, decide_eq_true_eq]
  omega

/-- On all-ASCII lists the two character classes agree pointwise, so the two
alls agree. -/
lemma all_nameCharAllowed_eq_spec :
    ∀ (l : List Char), (∀ c ∈ l, c.toNat < 128) →
      l.all nameCharAllowed = l.all specNameCharAllowed := by
  intro l
  induction l with
  | nil => intro _; rfl
  | cons a t ih =>
      intro h
      simp only [List.all_cons,
        nameCharAllowed_eq_spec (h a (List.mem_cons_self a t)),
        ih (fun c hc => h c (List.mem_cons_of_mem a hc))]

/-- C1: barcode generation is the pure function that trims the name, replaces
each space with a hyphen, lower-cases the result and formats lw-slug-id; the
method on the entity returns exactly that string and stores it in the barcode
field; the three examples of the claim evaluate as stated; the function is
total, so generation never fails. -/
theorem C1_barcode_generation :
    (∀ l : Location,
        (Location.create_barcode l).1 = BarcodeGenerator.generate l.name l.id ∧
        (Location.create_barcode l).2 =
          { l with barcode := some (BarcodeGenerator.generate l.name l.id) }) ∧
    BarcodeGenerator.generate "location 1" 1 = "lw-location-1-1" ∧
    BarcodeGenerator.generate "Location1" 1 = "lw-location1-1" ∧
    BarcodeGenerator.generate "  Building  " 5 = "lw-building-5" := by
  exact ⟨fun l => ⟨rfl, rfl⟩, by decide, by decide, by decide⟩

/-- C2 counterexample: the name made of the single character é (code point
233) is accepted by the validation of the source — the Rust regex classes are
Unicode-aware — although every character of the claimed class [A-Za-z0-9_ -s()]
is ASCII, so the claim that such a name is rejected is false. -/
theorem C2_counterexample_unicode_name_accepted :
    Location.validate_name "é" = true ∧
    List.all (String.data "é") specNameCharAllowed = false := by decide

/-- C2 amended: restricted to ASCII names, validation returns true exactly
when the length lies in 1..=60 and every character belongs to the claimed
class; outside ASCII the code also accepts Unicode word characters and
counts the length in UTF-8 bytes. -/
theorem C2_validate_name_ascii_charset (name : String)
    (h : ∀ c ∈ name.data, c.toNat < 128) :
    Location.validate_name name = true ↔
      1 ≤ name.length ∧ name.length ≤ 60 ∧
        name.data.all specNameCharAllowed = true := by
  have hlen : rustStrLen name = name.length := by
    unfold rustStrLen
    exact sum_utf8Bytes_ascii name.data h
  have hall : name.data.all nameCharAllowed = name.data.all specNameCharAllowed :=
    all_nameCharAllowed_eq_spec name.data h
  unfold Location.validate_name
  rw [hlen, hall]
  by_cases h1 : 1 ≤ name.length
  · by_cases h2 : name.length ≤ 60
    · have hne : name.data ≠ [] := by
        intro e
        rw [show name.length = name.data.length from rfl, e] at h1
        simp at h1
      simp [h1, h2, hne]
    · simp [h2]
  · simp [h1]

/-- Witness for C2: the amended equivalence applied to the concrete ASCII
name "location 1". -/
theorem C2_witness_ascii_name : Location.validate_name "location 1" = true :=
  (C2_validate_name_ascii_charset "location 1" (by decide)).mpr (by decide)

/-- C3: at the concrete invalid name ~, validation fails, yet Location.create
first executes the INSERT — the row with the invalid name is in the store —
and only then hits the failed validation inside Location.new, whose unwrap is
a panic, not a returned error value. This contradicts the claim that creation
fails with a typed validation error before any statement is issued. -/
theorem C3_create_inserts_invalid_name_then_panics :
    Location.validate_name "~" = false ∧
    (Location.create "~" 1 freshDb).1 = RustOutcome.panicked "Invalid name format" ∧
    (Location.create "~" 1 freshDb).2.locations = [⟨1, "~", none, 1⟩] := by decide

/-- C7: the sentinel returned by Location.unknown takes no store argument, has
id 999, name UNKNOWN, barcode lw-unknown-999 and location type id 1, and the
unwrap in its lazy initialiser takes the Ok branch of Location.new; being a
plain value, every access yields the same entity. -/
theorem C7_unknown_location_sentinel :
    Location.unknown = UNKNOWN_LOCATION ∧
    Location.unknown.id = 999 ∧
    Location.unknown.name = "UNKNOWN" ∧
    Location.unknown.barcode = some "lw-unknown-999" ∧
    Location.unknown.location_type_id = 1 ∧
    Location.new 999 "UNKNOWN" 1 (some "lw-unknown-999") =
      Except.ok Location.unknown := by decide

/-- C9: Labware construction is total; with no location the location id is
the sentinel id 999, and with a location it is that location's id; id and
barcode are taken as given. -/
theorem C9_labware_new_location_default (id : Nat) (barcode : String) :
    (Labware.new id barcode none).id = id ∧
    (Labware.new id barcode none).barcode = barcode ∧
    (Labware.new id barcode none).location_id = Location.unknown.id ∧
    (Labware.new id barcode none).location_id = 999 ∧
    ∀ loc : Location, (Labware.new id barcode (some loc)).location_id = loc.id :=
  ⟨rfl, rfl, rfl, rfl, fun _ => rfl⟩

/-- A row fetch_one returns is a member of the result set. -/
lemma fetch_one_ok_mem {α : Type} {rows : List α} {x : α}
    (h : fetch_one rows = Except.ok x) : x ∈ rows := by
  cases rows with
  | nil => exact absurd h (by simp [fetch_one])
  | cons a t =>
      have ha : a = x := by simpa [fetch_one] using h
      subst ha
      exact List.mem_cons_self a t

/-- A location fetched by id carries that id. -/
lemma select_location_by_id_ok {i : Nat} {db : Db} {loc : Location}
    (h : select_location_by_id i db = Except.ok loc) : loc.id = i := by
  unfold select_location_by_id at h
  have hm := fetch_one_ok_mem h
  have hp := (List.mem_filter.mp hm).2
  simpa using hp

/-- Full behaviour of Location.create on a valid name: the returned entity
carries the assigned rowid, the name, the generated barcode and the type id,
and the store gains exactly the one row, first inserted with a NULL barcode
and then updated to carry the generated one. -/
lemma location_create_spec (name : String) (location_type_id : Nat) (db : Db)
    (h : Location.validate_name name = true) :
    Location.create name location_type_id db =
      (RustOutcome.ok
        ⟨nextRowid (db.locations.map Location.id), name,
          some (BarcodeGenerator.generate name
            (nextRowid (db.locations.map Location.id))), location_type_id⟩,
       { db with
          locations := db.locations ++
            [⟨nextRowid (db.locations.map Location.id), name,
              some (BarcodeGenerator.generate name
                (nextRowid (db.locations.map Location.id))), location_type_id⟩],
          last_insert_rowid := nextRowid (db.locations.map Location.id) }) := by
  have hid : ∀ l ∈ db.locations, l.id ≠ nextRowid (db.locations.map Location.id) := by
    intro l hl
    have := mem_id_lt_nextRowid hl
    omega
  simp [Location.create, insert_location, Location.new, h,
    Location.create_barcode, update_location_barcode,
    BarcodeGenerator.generate, update_barcode_map_skips hid]

/-- C4: Location.create runs the two-phase sequence: the INSERT carries the
name and the type id and no barcode, the assigned id is read back as
last_insert_rowid, the entity is built, the barcode computed from the name
and that id is written onto the row by the UPDATE, and the returned entity
has its barcode field populated with the generated barcode and its name and
type id equal to the arguments. -/
theorem C4_location_create_two_phase (name : String) (location_type_id : Nat)
    (db : Db) (h : Location.validate_name name = true) :
    (insert_location name location_type_id db).2.locations =
      db.locations ++
        [⟨nextRowid (db.locations.map Location.id), name, none, location_type_id⟩] ∧
    (insert_location name location_type_id db).1 =
      (insert_location name location_type_id db).2.last_insert_rowid ∧
    (Location.create name location_type_id db).1 =
      RustOutcome.ok
        ⟨nextRowid (db.locations.map Location.id), name,
          some (BarcodeGenerator.generate name
            (nextRowid (db.locations.map Location.id))), location_type_id⟩ ∧
    (Location.create name location_type_id db).2.locations =
      db.locations ++
        [⟨nextRowid (db.locations.map Location.id), name,
          some (BarcodeGenerator.generate name
            (nextRowid (db.locations.map Location.id))), location_type_id⟩] := by
  refine ⟨rfl, rfl, ?_, ?_⟩
  · rw [location_create_spec name location_type_id db h]
  · rw [location_create_spec name location_type_id db h]

/-- Witness for C4: the two-phase create applied at the concrete name
location1 on the store holding one location type. -/
theorem C4_witness_concrete_create :
    (Location.create "location1" 1 freshDb).1 =
      RustOutcome.ok ⟨1, "location1", some "lw-location1-1", 1⟩ :=
  (C4_location_create_two_phase "location1" 1 freshDb (by decide)).2.2.1

/-- C5 counterexample: a store failure that is not the zero-rows signal — an
unreachable store, reported as an Io error — is also converted by the lookup
into NotFoundError instead of being propagated unchanged, so the claim is
false at this input. -/
theorem C5_counterexample_io_error_becomes_not_found :
    Location.find_by_barcode_from_result
        (Except.error (SqlxError.Io "connection refused")) =
      Except.error ⟨"Location not found"⟩ ∧
    SqlxError.Io "connection refused" ≠ SqlxError.RowNotFound := by decide

/-- C5 amended: on both lookup paths a zero-row result is translated into
NotFoundError and so is every other store-level failure — the caller never
sees any raw store error; successful rows pass through unchanged. -/
theorem C5_every_store_error_becomes_not_found
    (r : Except SqlxError Location) (s : Except SqlxError Labware) :
    (∀ e : SqlxError, r = Except.error e →
        Location.find_by_barcode_from_result r =
          Except.error ⟨"Location not found"⟩) ∧
    (∀ l : Location, r = Except.ok l →
        Location.find_by_barcode_from_result r = Except.ok l) ∧
    (∀ e : SqlxError, s = Except.error e →
        Labware.find_by_barcode_from_result s =
          Except.error ⟨"Labware not found"⟩) ∧
    (∀ lw : Labware, s = Except.ok lw →
        Labware.find_by_barcode_from_result s = Except.ok lw) := by
  refine ⟨?_, ?_, ?_, ?_⟩ <;> intro x hx <;> subst hx <;> rfl

/-- C6: on a fresh store, creating a location with a valid name and an
existing type id and then looking it up by the returned barcode on the same
connection yields exactly the entity create returned. -/
theorem C6_round_trip (name : String) (location_type_id : Nat) (db : Db)
    (hname : Location.validate_name name = true)
    (hfresh : db.locations = [])
    (_htype : ∃ t ∈ db.location_types, LocationType.id t = location_type_id) :
    ∃ loc : Location, ∃ barcode : String,
      (Location.create name location_type_id db).1 = RustOutcome.ok loc ∧
      loc.barcode = some barcode ∧
      Location.find_by_barcode barcode (Location.create name location_type_id db).2 =
        Except.ok loc := by
  refine ⟨⟨nextRowid (db.locations.map Location.id), name,
      some (BarcodeGenerator.generate name (nextRowid (db.locations.map Location.id))),
      location_type_id⟩,
    BarcodeGenerator.generate name (nextRowid (db.locations.map Location.id)),
    ?_, rfl, ?_⟩
  · rw [location_create_spec name location_type_id db hname]
  · rw [location_create_spec name location_type_id db hname]
    unfold Location.find_by_barcode select_location_by_barcode
    rw [hfresh]
    simp [Location.find_by_barcode_from_result, fetch_one]

/-- Witness for C6: the round trip at the concrete name location1 on the
store holding one location type and no locations. -/
theorem C6_witness_concrete_round_trip :
    ∃ loc : Location, ∃ barcode : String,
      (Location.create "location1" 1 freshDb).1 = RustOutcome.ok loc ∧
      loc.barcode = some barcode ∧
      Location.find_by_barcode barcode (Location.create "location1" 1 freshDb).2 =
        Except.ok loc :=
  C6_round_trip "location1" 1 freshDb (by decide) rfl
    ⟨⟨1, "Building"⟩, by decide, rfl⟩

/-- Case analysis of Labware.create: the insert always executes, and the
outcome is decided by the re-fetch of the referenced location. -/
lemma labware_create_cases (barcode : String) (location_id : Nat) (db : Db) :
    (∃ e, select_location_by_id location_id (insert_labware barcode location_id db).2 =
          Except.error e ∧
        Labware.create barcode location_id db =
          (Except.error e, (insert_labware barcode location_id db).2)) ∨
    (∃ loc, select_location_by_id location_id (insert_labware barcode location_id db).2 =
          Except.ok loc ∧
        Labware.create barcode location_id db =
          (Except.ok (Labware.new (insert_labware barcode location_id db).1 barcode (some loc)),
           (insert_labware barcode location_id db).2)) := by
  simp only [Labware.create]
  cases hsel : select_location_by_id location_id (insert_labware barcode location_id db).2 with
  | error e => exact Or.inl ⟨e, rfl, rfl⟩
  | ok loc => exact Or.inr ⟨loc, rfl, rfl⟩

/-- C8: Labware.create inserts the row, reads back the assigned id, and
re-fetches the referenced location; when no location row has that id the
operation fails with the propagated store error — it does not fall back to
the unknown location — and on success the returned entity carries the
assigned id, the given barcode, and the fetched location's id. -/
theorem C8_labware_create_checks_location (barcode : String)
    (location_id : Nat) (db : Db) :
    (Labware.create barcode location_id db).2.labwares =
      db.labwares ++
        [⟨nextRowid (db.labwares.map Labware.id), barcode, location_id⟩] ∧
    (db.locations.filter (fun l => l.id = location_id) = [] →
      (Labware.create barcode location_id db).1 =
        Except.error SqlxError.RowNotFound) ∧
    (∀ lw : Labware, (Labware.create barcode location_id db).1 = Except.ok lw →
      lw.id = nextRowid (db.labwares.map Labware.id) ∧
      lw.barcode = barcode ∧ lw.location_id = location_id) := by
  refine ⟨?_, ?_, ?_⟩
  · rcases labware_create_cases barcode location_id db with
      ⟨e, hsel, heq⟩ | ⟨loc, hsel, heq⟩ <;> rw [heq] <;> rfl
  · intro hf
    rcases labware_create_cases barcode location_id db with
      ⟨e, hsel, heq⟩ | ⟨loc, hsel, heq⟩
    · have hsel2 : select_location_by_id location_id
          (insert_labware barcode location_id db).2 =
          Except.error SqlxError.RowNotFound := by
        unfold select_location_by_id
        have h2 : (insert_labware barcode location_id db).2.locations = db.locations := rfl
        rw [h2, hf]
        rfl
      rw [hsel2] at hsel
      have he : SqlxError.RowNotFound = e := by simpa using hsel
      rw [heq, ← he]
    · have h2 : (insert_labware barcode location_id db).2.locations = db.locations := rfl
      unfold select_location_by_id at hsel
      rw [h2, hf] at hsel
      exact absurd hsel (by simp [fetch_one])
  · intro lw hok
    rcases labware_create_cases barcode location_id db with
      ⟨e, hsel, heq⟩ | ⟨loc, hsel, heq⟩
    · rw [heq] at hok
      exact absurd hok (by simp)
    · rw [heq] at hok
      have hlw : Labware.new (insert_labware barcode location_id db).1 barcode (some loc) = lw := by
        simpa using hok
      have hid := select_location_by_id_ok hsel
      subst hlw
      exact ⟨rfl, rfl, hid⟩

/-- C10: whenever Labware.update succeeds, the returned entity keeps the
input's barcode, carries the input's location id (through the re-fetched
location), and takes its id from the connection's last-inserted rowid —
which, as the second half shows at a concrete store, need not equal the
input's id. -/
theorem C10_labware_update_takes_last_insert_rowid :
    (∀ (lw : Labware) (db : Db) (lw2 : Labware),
        (Labware.update lw db).1 = Except.ok lw2 →
          lw2.barcode = lw.barcode ∧ lw2.location_id = lw.location_id ∧
          lw2.id = db.last_insert_rowid) ∧
    (∃ (lw : Labware) (db : Db) (lw2 : Labware),
        (Labware.update lw db).1 = Except.ok lw2 ∧ lw2.id ≠ lw.id) := by
  constructor
  · intro lw db lw2 hok
    simp only [Labware.update] at hok
    cases hsel : select_location_by_id lw.location_id
        (update_labware_location lw.id lw.location_id db) with
    | error e =>
        rw [hsel] at hok
        exact absurd hok (by simp)
    | ok loc =>
        rw [hsel] at hok
        have hlw : Labware.new
            (update_labware_location lw.id lw.location_id db).last_insert_rowid
            lw.barcode (some loc) = lw2 := by
          simpa using hok
        have hid := select_location_by_id_ok hsel
        subst hlw
        exact ⟨rfl, hid, rfl⟩
  · exact ⟨⟨3, "lw-1", 1⟩,
      ⟨[⟨1, "Building"⟩], [⟨1, "Building", some "lw-building-1", 1⟩],
        [⟨3, "lw-1", 1⟩], 7⟩,
      ⟨7, "lw-1", 1⟩, by decide, by decide⟩

